import Mathlib

/-!
Verification of the email-lead-monitor pipeline (`src/index.js`).

The source is a small Node/Express service.  We shallow-embed its
email-processing pipeline: the external collaborators (the Gmail client
`gmail.*`, the OpenAI client `openai.chat.completions.create` together with
the host builtin `JSON.parse` applied to its response text, and the base64
codec `Buffer.from(..).toString(..)`) are modelled as an explicit environment
record `Env` of oracles, and every function of the source becomes a pure Lean
function over that environment.  JavaScript exceptions become `Except String`
values (carrying `error.message`); the `try`/`catch` blocks of the source
become the corresponding `match`es.  JavaScript numbers reaching the code
come out of `JSON.parse`, i.e. from finite decimal numerals, which we model
as rationals; the fixed literal `0.6` of the source denotes the same value on
both sides of the embedding.
-/

namespace EmailLeadMonitor

set_option maxRecDepth 8000

/-- A JSON value as produced by `JSON.parse` on the inference gateway's
response text.  Object field lists stand for already-evaluated JavaScript
objects, so keys are unique and lookup takes the first (only) match.
Numbers are modelled as rationals: JSON numerals are finite decimals. -/
inductive Json where
  | null
  | bool (b : Bool)
  | num (q : ℚ)
  | str (s : String)
  | arr (elems : List Json)
  | obj (fields : List (String × Json))

/-- JavaScript property access `v.k` for a parsed-JSON value that is not
`null` (`processEmail` below guards the `null` case, where access throws,
before this is used).  Access on non-objects yields `undefined`, i.e.
`none`. -/
def jsonGet : Json → String → Option Json
  | .obj fields, k => (fields.find? (fun p => p.1 == k)).map (fun p => p.2)
  | _, _ => none

/-- JavaScript truthiness (`ToBoolean`) of a possibly-`undefined` parsed-JSON
value.  `NaN` cannot arise from `JSON.parse`, so `num` truthiness is exactly
`q ≠ 0`. -/
def jsTruthy : Option Json → Bool
  | none => false
  | some .null => false
  | some (.bool b) => b
  | some (.num q) => decide (q ≠ 0)
  | some (.str s) => decide (s ≠ "")
  | some (.arr _) => true
  | some (.obj _) => true

/-- JavaScript `ToNumber` on a possibly-`undefined` parsed-JSON value;
`none` encodes `NaN`.  Strings and arrays are modelled as `NaN`: JavaScript
would coerce them (`Number("0.7") = 0.7`, `Number([2]) = 2`), a case no
theorem below exercises; objects coerce to `NaN` as in JavaScript. -/
def toNumberSimple : Option Json → Option ℚ
  | none => none
  | some .null => some 0
  | some (.bool b) => some (if b then 1 else 0)
  | some (.num q) => some q
  | some (.str _) => none
  | some (.arr _) => none
  | some (.obj _) => none

/-- JavaScript `x > q` for a parsed-JSON operand against a numeric literal:
`NaN` comparisons are `false`. -/
def jsGt (x : Option Json) (q : ℚ) : Bool :=
  match toNumberSimple x with
  | some n => decide (q < n)
  | none => false

/-- Line 218 of the source:
`const isLead = analysis.isLead && analysis.confidence > 0.6;`
(the value is consumed only for its truthiness downstream, so we model the
JavaScript `&&`-chain as a `Bool`). -/
def effectiveLead (analysis : Json) : Bool :=
  jsTruthy (jsonGet analysis "isLead") && jsGt (jsonGet analysis "confidence") (0.6 : ℚ)

/-- The fallback verdict returned by `analyzeEmailContent` on any caught
error (source line 67). -/
def fallbackVerdict : Json :=
  .obj [("isLead", .bool false), ("confidence", .num 0),
        ("reason", .str "Analysis failed"), ("keywords", .arr [])]

/-- A message stub as returned by `gmail.users.messages.list` (only `id` is
consumed by the source). -/
structure MsgStub where
  id : String

/-- One entry of `Subject`-style header lists; in the duck-typed source both
the name and the value of a header object may be absent. -/
structure Header where
  name : Option String
  value : Option String

/-- A `body` object of the Gmail payload: `data` is the base64 text, possibly
absent. -/
structure BodyObj where
  data : Option String

/-- One entry of `payload.parts`. -/
structure Part where
  mimeType : Option String
  body : Option BodyObj

/-- The `payload` of a full Gmail message as consumed by `processEmail`:
each of the three fields the source dereferences may be absent in a raw
provider value. -/
structure Payload where
  headers : Option (List Header)
  body : Option BodyObj
  parts : Option (List Part)

/-- The part of `fullMessage.data` the source consumes. -/
structure FullMessage where
  threadId : Option String
  payload : Payload

/-- The draft-create request body built by `createDraftResponse`
(`message.threadId` and `message.raw`). -/
structure DraftRequest where
  threadId : Option String
  raw : String

/-- One entry of `gmail.users.labels.list`. -/
structure LabelInfo where
  id : String
  name : String

/-- The environment of external collaborators: each field is the outcome
oracle of one remote call of the source.  `chatAnalyze` covers the composite
`openai.chat.completions.create` + `response.choices[0].message.content` +
`JSON.parse` (all inside one `try`, so a gateway throw and a parse throw are
indistinguishable to the caller); `chatDraft` likewise yields the completion
content.  `b64encode`/`b64decode` model the invertible
`Buffer.from(..).toString(..)` transports (URL-safe base64 on encode). -/
structure Env where
  listMessages : Except String (Option (List MsgStub))
  getMessage : String → Except String FullMessage
  chatAnalyze : String → Except String Json
  chatDraft : String → Except String String
  draftsCreate : DraftRequest → Except String Unit
  labelsList : Except String (List LabelInfo)
  labelsCreate : String → Except String String
  messagesModify : String → String → Except String Unit
  b64encode : String → String
  b64decode : String → String

/-- The classification prompt of `analyzeEmailContent` (source lines 33-56). -/
def analysisPrompt (subject body : String) : String :=
  "Analyze this email to determine if the sender is inquiring about business services, products, or is a potential lead.\n\nSubject: " ++ subject ++ "\nBody: " ++ body ++ "\n\nRespond with a JSON object containing:\n- \"isLead\": boolean (true if this appears to be a service inquiry or potential business lead)\n- \"confidence\": number (0-1, how confident you are)\n- \"reason\": string (brief explanation of why this is/isn\x27t a lead)\n- \"keywords\": array of relevant keywords found\n\nConsider these as potential lead indicators:\n- Asking about services, products, pricing\n- Requesting quotes or information\n- Business inquiries\n- Partnership opportunities\n- Questions about capabilities\n\nExclude:\n- Personal emails\n- Spam/promotional emails\n- Newsletters\n- Social notifications\n- Internal communications"

/-- `analyzeEmailContent(subject, body)` (source lines 31-69): on success the
parsed gateway output is returned as-is (there is no schema validation and no
clamping); any caught error yields the fallback verdict. -/
def analyzeEmailContent (env : Env) (subject body : String) : Json :=
  match env.chatAnalyze (analysisPrompt subject body) with
  | .ok parsed => parsed
  | .error _ => fallbackVerdict

/-- The original-email record `{ subject, body, from, to }` passed to
`generateDraftResponse` (source lines 223-227). -/
structure OriginalEmail where
  subject : String
  body : String
  «from» : String
  «to» : String

/-- The reply-generation prompt of `generateDraftResponse`
(source lines 74-100), selected by the lead flag. -/
def draftPrompt (originalEmail : OriginalEmail) (isLead : Bool) : String :=
  if isLead then
    "Generate a professional, friendly draft response to this potential business lead inquiry:\n\nOriginal Email Subject: " ++ originalEmail.subject ++ "\nOriginal Email: " ++ originalEmail.body ++ "\nSender: " ++ originalEmail.«from» ++ "\n\nCreate a response that:\n- Thanks them for their interest\n- Acknowledges their specific inquiry\n- Provides helpful information about your services\n- Includes a call to action (meeting, call, more info)\n- Maintains a professional but warm tone\n- Is concise but informative\n\nDo not include placeholder company information - keep it generic but professional."
  else
    "Generate a brief, polite response to this email:\n\nOriginal Email Subject: " ++ originalEmail.subject ++ "\nOriginal Email: " ++ originalEmail.body ++ "\nSender: " ++ originalEmail.«from» ++ "\n\nCreate a short, courteous response that:\n- Acknowledges their message\n- Is helpful and professional\n- Keeps it brief since this isn\x27t a business inquiry"

/-- The lead-branch fallback reply text (source line 113). -/
def leadFallback : String :=
  "Thank you for your inquiry about our services. I\x27ll get back to you shortly with more information."

/-- The non-lead-branch fallback reply text (source line 114). -/
def nonLeadFallback : String :=
  "Thank you for your email. I\x27ll review it and get back to you if needed."

/-- `generateDraftResponse(originalEmail, isLead, analysis)` (source lines
72-116): the gateway's completion content is returned verbatim on success;
a caught error yields the per-branch fixed fallback text. -/
def generateDraftResponse (env : Env) (originalEmail : OriginalEmail) (isLead : Bool) : String :=
  match env.chatDraft (draftPrompt originalEmail isLead) with
  | .ok content => content
  | .error _ => if isLead then leadFallback else nonLeadFallback

/-- The RFC-822-ish reply envelope built by `createDraftResponse` (source
lines 124-131): the six lines joined by CRLF, before transport encoding. -/
def buildRawReply (originalMessageId «to» subject body : String) : String :=
  "To: " ++ «to» ++ "\r\n" ++
  "Subject: Re: " ++ subject ++ "\r\n" ++
  "In-Reply-To: " ++ originalMessageId ++ "\r\n" ++
  "References: " ++ originalMessageId ++ "\r\n" ++
  "\r\n" ++ body

/-- `createDraftResponse(originalMessageId, to, subject, body, threadId)`
(source lines 119-145): the catch logs and rethrows, so the call's error
propagates to the caller unchanged. -/
def createDraftResponse (env : Env) (originalMessageId «to» subject body : String)
    (threadId : Option String) : Except String Unit :=
  env.draftsCreate
    { threadId := threadId
      raw := env.b64encode (buildRawReply originalMessageId «to» subject body) }

/-- What one `addLabelToEmail` run amounts to: the label was applied, or the
inner catch swallowed a list/create error and returned early, or the outer
catch swallowed a modify error.  The JavaScript function returns normally
(`undefined`) in all three cases; this type records which branch ran. -/
inductive LabelResult where
  | applied (labelId : String)
  | manageFailed (err : String)
  | modifyFailed (err : String)

/-- `addLabelToEmail(messageId, labelName)` (source lines 148-187): look up
the label by exact name, create it if absent, then add it to the message;
every failure is caught and swallowed. -/
def addLabelToEmail (env : Env) (messageId labelName : String) : LabelResult :=
  match env.labelsList with
  | .error e => .manageFailed e
  | .ok labels =>
    match labels.find? (fun label => label.name == labelName) with
    | some existingLabel =>
      match env.messagesModify messageId existingLabel.id with
      | .error e => .modifyFailed e
      | .ok _ => .applied existingLabel.id
    | none =>
      match env.labelsCreate labelName with
      | .error e => .manageFailed e
      | .ok newId =>
        match env.messagesModify messageId newId with
        | .error e => .modifyFailed e
        | .ok _ => .applied newId

/-- JavaScript `x || \x27\x27` on a possibly-`undefined` string: `undefined`
maps to `""` (and `""`, being falsy, also maps to `""`, which coincides). -/
def jsOrEmpty : Option String → String
  | some s => s
  | none => ""

/-- `headers.find(h => h.name === nm)?.value` — case-sensitive exact match
on the header name; absent name or value behaves as `undefined`. -/
def findHeader (hs : List Header) (nm : String) : Option String :=
  (hs.find? (fun h => h.name == some nm)).bind (fun h => h.value)

/-- `error.message` of the TypeError thrown by `payload.body.data` (or
`textPart?.body.data`) when the body object is absent. -/
def tyErrBodyData : String := "Cannot read properties of undefined (reading \x27data\x27)"

/-- `error.message` of the TypeError thrown by `headers.find(...)` when the
payload carries no headers array. -/
def tyErrHeaders : String := "Cannot read properties of undefined (reading \x27find\x27)"

/-- `error.message` of the TypeError thrown by `analysis.isLead` when the
parsed analysis is `null`. -/
def tyErrNull : String := "Cannot read properties of null (reading \x27isLead\x27)"

/-- The `else if (fullMessage.data.payload.parts)` branch of the body
extraction (source lines 207-212).  An empty parts array is truthy in
JavaScript, so `some []` still enters the branch; a selected text/plain part
without a body object makes `textPart?.body.data` throw. -/
def partsFallback (dec : String → String) (parts? : Option (List Part)) : Except String String :=
  match parts? with
  | none => .ok ""
  | some parts =>
    match parts.find? (fun part => part.mimeType == some "text/plain") with
    | none => .ok ""
    | some textPart =>
      match textPart.body with
      | none => .error tyErrBodyData
      | some tb =>
        match tb.data with
        | none => .ok ""
        | some d => .ok (if d == "" then "" else dec d)

/-- The body extraction of `processEmail` (source lines 204-212):
`payload.body.data` throws when the body object is absent; empty or absent
`data` is falsy and falls through to the parts branch. -/
def extractBody (dec : String → String) (p : Payload) : Except String String :=
  match p.body with
  | none => .error tyErrBodyData
  | some bo =>
    match bo.data with
    | some d => if d == "" then partsFallback dec p.parts else .ok (dec d)
    | none => partsFallback dec p.parts

/-- The header-and-body decoding of `processEmail` (source lines 198-212),
returning `(subject, from, to, body)`; `headers.find` throws first when the
headers array is absent. -/
def decodeFields (dec : String → String) (p : Payload) :
    Except String (String × String × String × String) :=
  match p.headers with
  | none => .error tyErrHeaders
  | some hs =>
    (extractBody dec p).map (fun body =>
      (jsOrEmpty (findHeader hs "Subject"), jsOrEmpty (findHeader hs "From"),
       jsOrEmpty (findHeader hs "To"), body))

/-- The success payload of a `ProcessingResult` (source lines 244-252).
`isLead` is the truthiness of the line-218 value and `confidence` is the raw
`analysis.confidence` field. -/
structure SuccessPayload where
  messageId : String
  «from» : String
  subject : String
  isLead : Bool
  confidence : Option Json
  label : String

/-- The per-candidate outcome: `{success:true, ...}` or
`{success:false, error}`. -/
inductive ProcessingResult where
  | success (p : SuccessPayload)
  | failure (error : String)

/-- `processEmail(message)` (source lines 190-258): fetch, decode, classify,
threshold, draft, create the provider draft, label, and report; any throw
inside the `try` becomes a failure result at this candidate boundary. -/
def processEmail (env : Env) (message : MsgStub) : ProcessingResult :=
  match env.getMessage message.id with
  | .error e => .failure e
  | .ok fullMessage =>
    match decodeFields env.b64decode fullMessage.payload with
    | .error e => .failure e
    | .ok (subject, sender, «to», body) =>
      let analysis := analyzeEmailContent env subject body
      match analysis with
      | .null => .failure tyErrNull
      | a =>
        let isLead := effectiveLead a
        let draftBody := generateDraftResponse env
          { subject := subject, body := body, «from» := sender, «to» := «to» } isLead
        match createDraftResponse env message.id sender subject draftBody
            fullMessage.threadId with
        | .error e => .failure e
        | .ok _ =>
          let labelName := if isLead then "lead" else "other"
          let _ := addLabelToEmail env message.id labelName
          .success { messageId := message.id, «from» := sender, subject := subject,
                     isLead := isLead, confidence := jsonGet a "confidence",
                     label := labelName }

/-- `processedEmails.add(id)` on the in-memory `Set`, modelled on an ordered
duplicate-free list. -/
def setAdd (s : List String) (x : String) : List String :=
  if x ∈ s then s else s ++ [x]

/-- The cycle report `{ processed, results }` of `monitorEmails`. -/
structure MonitorReport where
  processed : Nat
  results : List ProcessingResult

/-- `monitorEmails()` (source lines 261-301): list unread candidates, filter
against the ledger, process each sequentially (adding its id to the ledger
regardless of outcome), and report; the outer catch logs and rethrows, so
only the initial list call can make the whole cycle fail. -/
def monitorEmails (env : Env) (processedEmails : List String) :
    Except String (MonitorReport × List String) :=
  match env.listMessages with
  | .error e => .error e
  | .ok none => .ok ({ processed := 0, results := [] }, processedEmails)
  | .ok (some msgs) =>
    let newEmails := msgs.filter (fun msg => !(processedEmails.contains msg.id))
    if newEmails.length = 0 then
      .ok ({ processed := 0, results := [] }, processedEmails)
    else
      let step := newEmails.foldl
        (fun acc email => (acc.1 ++ [processEmail env email], setAdd acc.2 email.id))
        (([] : List ProcessingResult), processedEmails)
      .ok ({ processed := newEmails.length, results := step.1 }, step.2)

/-- The `log(message)` store update (source lines 22-28), acting on the ring
of already-formatted entries: push, then drop the oldest entry when the
length exceeds 100. -/
def log (logs : List String) (entry : String) : List String :=
  if 100 < (logs ++ [entry]).length then (logs ++ [entry]).drop 1 else logs ++ [entry]

/-- The log store after a whole history of insertions, starting from the
empty ring the process boots with. -/
def logStoreAfter (entries : List String) : List String :=
  entries.foldl log []

/-- The `GET /logs` handler body (source lines 331-336):
`{ logs: logs.slice(-50), total: logs.length }`. -/
def logsEndpoint (logs : List String) : List String × Nat :=
  (logs.drop (logs.length - 50), logs.length)

/-- A fixture environment whose every remote call fails with message
`"offline"` and whose listing yields the three stubs `a`, `b`, `c`; the
transport codecs are the identity. -/
def offlineEnv : Env where
  listMessages := .ok (some [{ id := "a" }, { id := "b" }, { id := "c" }])
  getMessage := fun _ => .error "offline"
  chatAnalyze := fun _ => .error "offline"
  chatDraft := fun _ => .error "offline"
  draftsCreate := fun _ => .error "offline"
  labelsList := .error "offline"
  labelsCreate := fun _ => .error "offline"
  messagesModify := fun _ _ => .error "offline"
  b64encode := id
  b64decode := id

/-- A verdict sitting exactly on the 0.6 confidence boundary. -/
def boundaryVerdict : Json :=
  .obj [("isLead", .bool true), ("confidence", .num (0.6 : ℚ))]

/-- Claim C1: for every classification verdict whose `isLead` field is the
boolean `b` and whose `confidence` field is the number `c`, the line-218
effective-lead flag is true iff `b` is true and `c` is strictly greater than
0.6; in particular a confidence of exactly 0.6 is not an effective lead. -/
theorem effectiveLead_spec (a : Json) (b : Bool) (c : ℚ)
    (hL : jsonGet a "isLead" = some (Json.bool b))
    (hC : jsonGet a "confidence" = some (Json.num c)) :
    (effectiveLead a = true ↔ b = true ∧ (0.6 : ℚ) < c)
    ∧ (c = (0.6 : ℚ) → effectiveLead a = false) := by
  unfold effectiveLead
  rw [hL, hC]
  constructor
  · simp [jsTruthy, jsGt, toNumberSimple]
  · intro hc
    subst hc
    simp [jsTruthy, jsGt, toNumberSimple]

/-- Witness for C1: a verdict with `isLead:true` and confidence exactly 0.6
is not an effective lead. -/
theorem effectiveLead_spec_witness : effectiveLead boundaryVerdict = false :=
  (effectiveLead_spec boundaryVerdict true (0.6 : ℚ) rfl rfl).2 rfl

/-- Claim C9: a log insertion keeps the ring at no more than 100 entries,
and inserting into a ring holding exactly 100 entries drops the oldest entry
and keeps the remaining 100, in order (old entries in order, then the new
one). -/
theorem log_ring_bounded (logs : List String) (entry : String) :
    (logs.length ≤ 100 → (log logs entry).length ≤ 100)
    ∧ (logs.length = 100 → log logs entry = logs.tail ++ [entry]) := by
  constructor
  · intro h
    unfold log
    split
    next h101 =>
      simp only [List.length_drop, List.length_append, List.length_cons,
        List.length_nil] at h101 ⊢
      omega
    next h101 =>
      simp only [List.length_append, List.length_cons, List.length_nil] at h101 ⊢
      omega
  · intro h
    unfold log
    rw [if_pos (by simp [h])]
    rw [List.drop_append_eq_append_drop]
    simp [h, List.drop_one]

/-- A concrete ring of 100 distinct entries. -/
def fullRing : List String := (List.range 100).map (fun n => Nat.repr n)

/-- Witness for C9: inserting the 101st entry into the full 100-entry ring
evicts exactly the oldest entry and preserves the order of the rest. -/
theorem log_ring_bounded_witness :
    log fullRing "entry-100" = fullRing.tail ++ ["entry-100"] ∧ fullRing.length = 100 :=
  ⟨(log_ring_bounded fullRing "entry-100").2 (by decide), by decide⟩

/-- Claim C10 counterexample: after an all-time history of 101 insertions the
endpoint's `total` field is 100 — the retained ring size — not the all-time
count 101, refuting the claim that `total` equals the all-time count. -/
theorem logs_total_not_alltime_cx :
    (logsEndpoint (logStoreAfter (List.replicate 101 "x"))).2 = 100
    ∧ (List.replicate 101 "x").length = 101 := by
  constructor
  · decide
  · decide

/-- The length of one log insertion, below capacity. -/
theorem log_length (logs : List String) (entry : String) (h : logs.length ≤ 100) :
    (log logs entry).length = min (logs.length + 1) 100 := by
  unfold log
  split
  next h101 =>
    simp only [List.length_drop, List.length_append, List.length_cons,
      List.length_nil] at h101 ⊢
    omega
  next h101 =>
    simp only [List.length_append, List.length_cons, List.length_nil] at h101 ⊢
    omega

/-- The retained ring size after a whole history is the all-time count capped
at 100. -/
theorem logStoreAfter_length (entries : List String) :
    (logStoreAfter entries).length = min entries.length 100 := by
  suffices h : ∀ acc : List String, acc.length ≤ 100 →
      (entries.foldl log acc).length = min (acc.length + entries.length) 100 by
    simpa [logStoreAfter] using h [] (by simp)
  induction entries with
  | nil =>
    intro acc hacc
    simp only [List.foldl_nil, List.length_nil]
    omega
  | cons e es ih =>
    intro acc hacc
    simp only [List.foldl_cons]
    rw [ih (log acc e) (by rw [log_length acc e hacc]; omega)]
    rw [log_length acc e hacc]
    simp only [List.length_cons]
    omega

/-- Claim C10 (amended): for every insertion history, `GET /logs` returns at
most 50 entries (the most recent ones, taken from the end of the ring), and
its `total` field equals the number of currently retained entries — the
all-time count capped at 100 — rather than the all-time count itself. -/
theorem logs_endpoint_bounds (entries : List String) :
    (logsEndpoint (logStoreAfter entries)).1.length ≤ 50
    ∧ (logsEndpoint (logStoreAfter entries)).1
        = (logStoreAfter entries).drop ((logStoreAfter entries).length - 50)
    ∧ (logsEndpoint (logStoreAfter entries)).2 = min entries.length 100 := by
  refine ⟨?_, rfl, ?_⟩
  · simp only [logsEndpoint, List.length_drop]
    omega
  · simp only [logsEndpoint, logStoreAfter_length]

/-- A parsed gateway verdict whose confidence exceeds 1. -/
def overConfVerdict : Json :=
  .obj [("isLead", .bool true), ("confidence", .num (1.5 : ℚ)),
        ("reason", .str "sure"), ("keywords", .arr [])]

/-- The offline fixture with the analysis gateway returning the
out-of-range-confidence verdict. -/
def overConfEnv : Env := { offlineEnv with chatAnalyze := fun _ => .ok overConfVerdict }

/-- Claim C2 counterexample: the caller neither clamps nor rejects — a
gateway verdict with confidence 1.5 is consumed downstream unchanged, its
confidence field is still 1.5 (outside [0,1]), and the threshold comparison
uses it directly, yielding an effective lead. -/
theorem confidence_not_clamped_cx :
    analyzeEmailContent overConfEnv "s" "b" = overConfVerdict
    ∧ jsonGet (analyzeEmailContent overConfEnv "s" "b") "confidence"
        = some (Json.num (1.5 : ℚ))
    ∧ ¬ ((1.5 : ℚ) ≤ 1)
    ∧ effectiveLead (analyzeEmailContent overConfEnv "s" "b") = true := by
  refine ⟨rfl, rfl, by norm_num, ?_⟩
  show effectiveLead overConfVerdict = true
  unfold effectiveLead
  rw [show jsonGet overConfVerdict "isLead" = some (Json.bool true) from rfl,
    show jsonGet overConfVerdict "confidence" = some (Json.num (1.5 : ℚ)) from rfl]
  simp only [jsTruthy, jsGt, toNumberSimple, Bool.true_and, decide_eq_true_eq]
  norm_num

/-- Claim C2 (amended): no clamping or rejection happens between the gateway
and the threshold comparison: the verdict consumed downstream is the parsed
gateway output itself, and the effective-lead comparison uses the parsed
confidence value as-is, whether or not it lies in [0,1]. -/
theorem confidence_passthrough (env : Env) (s b : String) (v : Json) (c : ℚ)
    (h : env.chatAnalyze (analysisPrompt s b) = .ok v) :
    analyzeEmailContent env s b = v
    ∧ (jsonGet v "confidence" = some (Json.num c) →
        effectiveLead (analyzeEmailContent env s b)
          = (jsTruthy (jsonGet v "isLead") && decide ((0.6 : ℚ) < c))) := by
  have hA : analyzeEmailContent env s b = v := by
    unfold analyzeEmailContent; rw [h]
  refine ⟨hA, fun hc => ?_⟩
  rw [hA]
  unfold effectiveLead jsGt
  rw [hc]
  rfl

/-- Witness for amended C2: the 1.5-confidence verdict passes through and
its raw confidence decides the comparison. -/
theorem confidence_passthrough_witness :
    analyzeEmailContent overConfEnv "x" "y" = overConfVerdict
    ∧ effectiveLead (analyzeEmailContent overConfEnv "x" "y")
        = (jsTruthy (jsonGet overConfVerdict "isLead")
            && decide ((0.6 : ℚ) < (1.5 : ℚ))) := by
  have h := confidence_passthrough overConfEnv "x" "y" overConfVerdict (1.5 : ℚ) rfl
  exact ⟨h.1, h.2 rfl⟩

/-- A parsed gateway response that is valid JSON but not verdict-shaped. -/
def badSchema : Json := .obj [("foo", .num 1)]

/-- The offline fixture with the analysis gateway returning the
unexpected-schema value. -/
def badSchemaEnv : Env := { offlineEnv with chatAnalyze := fun _ => .ok badSchema }

/-- The fallback verdict exactly as claim C5 words it (reason "analysis
failed", lower-case), for comparison against the source's value. -/
def claimFallbackVerdict : Json :=
  .obj [("isLead", .bool false), ("confidence", .num 0),
        ("reason", .str "analysis failed"), ("keywords", .arr [])]

/-- Claim C5 counterexample: a response that parses to JSON of an unexpected
schema is returned as parsed, not replaced by any fallback; and on a genuine
gateway error the fallback's reason is "Analysis failed", not the claimed
"analysis failed". -/
theorem classifier_fallback_cx :
    analyzeEmailContent badSchemaEnv "s" "b" = badSchema
    ∧ analyzeEmailContent badSchemaEnv "s" "b" ≠ claimFallbackVerdict
    ∧ jsonGet (analyzeEmailContent offlineEnv "s" "b") "reason"
        = some (Json.str "Analysis failed")
    ∧ "Analysis failed" ≠ "analysis failed" := by
  refine ⟨rfl, ?_, rfl, by decide⟩
  intro hEq
  have h2 := congrArg (fun j => jsonGet j "isLead") hEq
  have h3 : (none : Option Json) = some (Json.bool false) := h2
  exact Option.noConfusion h3

/-- Claim C5 (amended): on any caught classifier error — gateway error,
timeout, or unparsable response text — classify returns exactly the fixed
fallback verdict (whose reason is "Analysis failed") instead of propagating
an error; a response that parses to valid JSON is returned as parsed,
whatever its schema. -/
theorem classifier_fallback (env : Env) (s b : String) (e : String) (v : Json) :
    (env.chatAnalyze (analysisPrompt s b) = .error e →
      analyzeEmailContent env s b = fallbackVerdict)
    ∧ (env.chatAnalyze (analysisPrompt s b) = .ok v →
      analyzeEmailContent env s b = v) := by
  constructor
  · intro h; unfold analyzeEmailContent; rw [h]
  · intro h; unfold analyzeEmailContent; rw [h]

/-- Witness for amended C5: a failing gateway yields the source's fallback
verdict. -/
theorem classifier_fallback_witness :
    analyzeEmailContent offlineEnv "x" "y" = fallbackVerdict :=
  (classifier_fallback offlineEnv "x" "y" "offline" Json.null).1 rfl

/-- The offline fixture with the drafting gateway succeeding with an empty
completion. -/
def emptyDraftEnv : Env := { offlineEnv with chatDraft := fun _ => .ok "" }

/-- A concrete decoded original email. -/
def sampleEmail : OriginalEmail :=
  { subject := "Hi", body := "Need pricing", «from» := "x@y.z", «to» := "me@y.z" }

/-- Claim C6 counterexample: when the inference gateway succeeds with an
empty completion, the drafter returns the empty string, so the draft text is
not guaranteed non-empty on gateway success. -/
theorem draft_empty_cx :
    generateDraftResponse emptyDraftEnv sampleEmail true = "" := rfl

/-- Claim C6 (amended): on gateway failure the drafter returns a fixed
non-empty fallback string, distinct per branch; on gateway success it
returns the completion content verbatim, which may be empty. -/
theorem draft_fallback (env : Env) (orig : OriginalEmail) (isLead : Bool)
    (e s : String) :
    (env.chatDraft (draftPrompt orig isLead) = .error e →
      generateDraftResponse env orig isLead
        = (if isLead then leadFallback else nonLeadFallback)
      ∧ generateDraftResponse env orig isLead ≠ "")
    ∧ leadFallback ≠ nonLeadFallback
    ∧ (env.chatDraft (draftPrompt orig isLead) = .ok s →
      generateDraftResponse env orig isLead = s) := by
  refine ⟨fun h => ?_, by decide, fun h => ?_⟩
  · have hG : generateDraftResponse env orig isLead
        = (if isLead then leadFallback else nonLeadFallback) := by
      unfold generateDraftResponse; rw [h]
    refine ⟨hG, ?_⟩
    rw [hG]
    cases isLead <;> decide
  · unfold generateDraftResponse; rw [h]

/-- Witness for amended C6: with a failing gateway the lead branch returns
its fixed non-empty fallback. -/
theorem draft_fallback_witness :
    generateDraftResponse offlineEnv sampleEmail true = leadFallback
    ∧ generateDraftResponse offlineEnv sampleEmail true ≠ "" := by
  have h := (draft_fallback offlineEnv sampleEmail true "offline" "").1 rfl
  exact ⟨by simpa using h.1, h.2⟩

/-- The parts leg of the body-selection policy as the spec words it (§4.1),
for comparison with `partsFallback`: identical selection, but it never
raises — a selected part without a body object degrades to the empty
string. -/
def specPartsSelect (dec : String → String) : Option (List Part) → String
  | none => ""
  | some parts =>
    match parts.find? (fun part => part.mimeType == some "text/plain") with
    | none => ""
    | some textPart =>
      match textPart.body with
      | none => ""
      | some tb =>
        match tb.data with
        | none => ""
        | some d => if d == "" then "" else dec d

/-- The body-selection policy as the spec words it (§4.1), for comparison
with `extractBody`: inline body data if carried, else the first text/plain
part, else the empty string; never raises. -/
def specBodySelect (dec : String → String) (bo : BodyObj) (parts? : Option (List Part)) :
    String :=
  match bo.data with
  | some d => if d == "" then specPartsSelect dec parts? else dec d
  | none => specPartsSelect dec parts?

/-- A raw payload carrying a headers array but no body object. -/
def noBodyPayload : Payload := { headers := some [], body := none, parts := some [] }

/-- Claim C7 counterexample: decoding a payload without a body object raises
a TypeError (`payload.body.data` dereferences `undefined`) instead of
degrading to the empty string, so decoding is not raise-free on every raw
provider message. -/
theorem decode_raises_cx :
    decodeFields id noBodyPayload = .error tyErrBodyData := rfl

/-- `partsFallback` agrees with the spec's selection whenever any selected
text/plain part carries a body object. -/
theorem partsFallback_ok (dec : String → String) (parts? : Option (List Part))
    (hsel : ∀ parts textPart, parts? = some parts →
      parts.find? (fun part => part.mimeType == some "text/plain") = some textPart →
      textPart.body.isSome = true) :
    partsFallback dec parts? = .ok (specPartsSelect dec parts?) := by
  cases parts? with
  | none => rfl
  | some parts =>
    unfold partsFallback specPartsSelect
    dsimp only
    cases hf : parts.find? (fun part => part.mimeType == some "text/plain") with
    | none => rfl
    | some textPart =>
      have hb := hsel parts textPart rfl hf
      dsimp only
      cases htb : textPart.body with
      | none => rw [htb] at hb; simp at hb
      | some tb =>
        dsimp only
        cases tb.data with
        | none => rfl
        | some d => rfl

/-- Claim C7 (amended): for payloads carrying the provider schema's container
objects — a headers array, a body object, and a body object on any selected
text/plain part — decoding never raises: a missing Subject/From/To header and
missing body data degrade to the empty string, headers are matched
case-sensitively by exact name, and the body follows the
inline-then-first-text/plain-part-then-empty policy; a payload lacking those
containers raises a TypeError instead (caught at the candidate boundary). -/
theorem decode_total_on_schema (dec : String → String) (hs : List Header)
    (bo : BodyObj) (parts? : Option (List Part))
    (hsel : ∀ parts textPart, parts? = some parts →
      parts.find? (fun part => part.mimeType == some "text/plain") = some textPart →
      textPart.body.isSome = true) :
    decodeFields dec { headers := some hs, body := some bo, parts := parts? }
      = .ok (jsOrEmpty (findHeader hs "Subject"), jsOrEmpty (findHeader hs "From"),
             jsOrEmpty (findHeader hs "To"), specBodySelect dec bo parts?) := by
  have hB : extractBody dec { headers := some hs, body := some bo, parts := parts? }
      = .ok (specBodySelect dec bo parts?) := by
    unfold extractBody specBodySelect
    dsimp only
    cases bo.data with
    | some d =>
      cases hde : (d == "") with
      | true =>
        simp only [hde, if_true]
        exact partsFallback_ok dec parts? hsel
      | false =>
        simp only [hde]
        rfl
    | none => exact partsFallback_ok dec parts? hsel
  unfold decodeFields
  dsimp only
  rw [hB]
  rfl

/-- A schema-conforming payload: one Subject header, a body object without
inline data, and one text/plain part with data. -/
def schemaPayload : Payload :=
  { headers := some [{ name := some "Subject", value := some "Hello" }],
    body := some { data := none },
    parts := some [{ mimeType := some "text/plain",
                     body := some { data := some "Qm9keQ" } }] }

/-- Witness for amended C7: the schema-conforming payload decodes without
raising; missing From/To degrade to the empty string and the body comes from
the text/plain part. -/
theorem decode_total_on_schema_witness :
    decodeFields id schemaPayload = .ok ("Hello", "", "", "Qm9keQ") := by
  have h := decode_total_on_schema id
    [{ name := some "Subject", value := some "Hello" }]
    { data := none }
    (some [{ mimeType := some "text/plain",
             body := some { data := some "Qm9keQ" } }])
    (by
      intro parts textPart h1 h2
      injection h1 with h1'
      subst h1'
      have h2' : some ({ mimeType := some "text/plain",
                         body := some { data := some "Qm9keQ" } } : Part) = some textPart := h2
      injection h2' with h3
      rw [← h3]
      rfl)
  exact h

/-- Replace only the label-related oracles of an environment. -/
def withLabelEnv (env : Env) (ll : Except String (List LabelInfo))
    (lc : String → Except String String)
    (mm : String → String → Except String Unit) : Env :=
  { env with labelsList := ll, labelsCreate := lc, messagesModify := mm }

/-- Claim C8: label-lookup, label-creation and label-apply failures are
swallowed — `addLabelToEmail` returns normally, merely recording the caught
error — the candidate's ProcessingResult does not depend on the label
oracles at all (so the created draft is untouched), and a candidate whose
draft creation succeeded still reports success whatever the label oracles
do. -/
theorem label_failure_swallowed (env : Env) (m : MsgStub) (mid nm e : String)
    (ll ll' : Except String (List LabelInfo))
    (lc lc' : String → Except String String)
    (mm mm' : String → String → Except String Unit)
    (labels : List LabelInfo) (l : LabelInfo) :
    (env.labelsList = .error e → addLabelToEmail env mid nm = .manageFailed e)
    ∧ (env.labelsList = .ok labels →
        labels.find? (fun label => label.name == nm) = none →
        env.labelsCreate nm = .error e →
        addLabelToEmail env mid nm = .manageFailed e)
    ∧ (env.labelsList = .ok labels →
        labels.find? (fun label => label.name == nm) = some l →
        env.messagesModify mid l.id = .error e →
        addLabelToEmail env mid nm = .modifyFailed e)
    ∧ processEmail (withLabelEnv env ll lc mm) m
        = processEmail (withLabelEnv env ll' lc' mm') m
    ∧ (∀ full subject sender «to» body,
        env.getMessage m.id = .ok full →
        decodeFields env.b64decode full.payload = .ok (subject, sender, «to», body) →
        analyzeEmailContent env subject body ≠ Json.null →
        (∀ r, env.draftsCreate r = .ok ()) →
        ∃ p, processEmail env m = .success p) := by
  refine ⟨?_, ?_, ?_, ?_, ?_⟩
  · intro h
    unfold addLabelToEmail
    rw [h]
  · intro h1 h2 h3
    unfold addLabelToEmail
    rw [h1]
    dsimp only
    rw [h2]
    dsimp only
    rw [h3]
  · intro h1 h2 h3
    unfold addLabelToEmail
    rw [h1]
    dsimp only
    rw [h2]
    dsimp only
    rw [h3]
  · rfl
  · intro full subject sender «to» body hget hdec hnn hok
    unfold processEmail
    rw [hget]
    dsimp only
    rw [hdec]
    dsimp only
    cases hA : analyzeEmailContent env subject body
    case null => exact absurd hA hnn
    all_goals
      dsimp only
      unfold createDraftResponse
      rw [hok]
      exact ⟨_, rfl⟩

/-- A full message whose payload decodes cleanly: empty header list, inline
body data. -/
def okFull : FullMessage :=
  { threadId := some "t1",
    payload := { headers := some [], body := some { data := some "ping" },
                 parts := none } }

/-- A well-formed high-confidence lead verdict. -/
def leadVerdict : Json :=
  .obj [("isLead", .bool true), ("confidence", .num (0.9 : ℚ)),
        ("reason", .str "inquiry"), ("keywords", .arr [.str "pricing"])]

/-- A fixture where fetch, classification, drafting and draft creation all
succeed while every label operation fails. -/
def labelFailEnv : Env :=
  { offlineEnv with
    getMessage := fun _ => .ok okFull,
    chatAnalyze := fun _ => .ok leadVerdict,
    chatDraft := fun _ => .ok "Sounds good.",
    draftsCreate := fun _ => .ok () }

/-- Witness for C8: with the label oracles all failing, the label routine
returns normally recording the caught error, and the candidate still
reports success. -/
theorem label_failure_swallowed_witness :
    addLabelToEmail labelFailEnv "m1" "lead" = .manageFailed "offline"
    ∧ ∃ p, processEmail labelFailEnv { id := "m1" } = .success p := by
  have h := label_failure_swallowed labelFailEnv { id := "m1" } "m1" "lead" "offline"
    (.error "offline") (.error "offline")
    (fun _ => .error "offline") (fun _ => .error "offline")
    (fun _ _ => .error "offline") (fun _ _ => .error "offline")
    [] { id := "lid", name := "lead" }
  refine ⟨h.1 rfl, ?_⟩
  refine h.2.2.2.2 okFull "" "" "" "ping" rfl rfl ?_ (fun _ => rfl)
  intro hEq
  have h2 := congrArg (fun j => jsTruthy (jsonGet j "isLead")) hEq
  have h3 : true = false := h2
  exact Bool.noConfusion h3

/-- Evaluating the per-candidate fold of `monitorEmails` in closed form:
results are appended in candidate order and the ledger grows by `setAdd` per
id. -/
theorem foldl_step (env : Env) (es : List MsgStub) (acc : List ProcessingResult)
    (led : List String) :
    es.foldl (fun acc email => (acc.1 ++ [processEmail env email], setAdd acc.2 email.id))
        (acc, led)
      = (acc ++ es.map (processEmail env), es.foldl (fun l msg => setAdd l msg.id) led) := by
  induction es generalizing acc led with
  | nil => simp
  | cons e es ih => simp [ih]

/-- The element just added is in the set. -/
theorem setAdd_mem_self (s : List String) (x : String) : x ∈ setAdd s x := by
  unfold setAdd
  split
  · assumption
  · simp

/-- `setAdd` keeps previous members. -/
theorem setAdd_mem_of_mem (s : List String) (x y : String) (h : y ∈ s) :
    y ∈ setAdd s x := by
  unfold setAdd
  split
  · exact h
  · simp [h]

/-- After folding `setAdd` over candidates, old members persist and every
candidate's id is present. -/
theorem foldl_setAdd_mem (es : List MsgStub) (led : List String) :
    (∀ y ∈ led, y ∈ es.foldl (fun l msg => setAdd l msg.id) led)
    ∧ ∀ m ∈ es, m.id ∈ es.foldl (fun l msg => setAdd l msg.id) led := by
  induction es generalizing led with
  | nil => simp
  | cons e es ih =>
    constructor
    · intro y hy
      simp only [List.foldl_cons]
      exact (ih (setAdd led e.id)).1 y (setAdd_mem_of_mem _ _ _ hy)
    · intro m hm
      simp only [List.foldl_cons]
      rcases List.mem_cons.mp hm with h | h
      · subst h
        exact (ih (setAdd led m.id)).1 m.id (setAdd_mem_self led m.id)
      · exact (ih (setAdd led e.id)).2 m h

/-- One cycle with a successful listing, in closed form: the processed count,
the results and the final ledger all come from the ledger-filtered candidate
list. -/
theorem monitorEmails_run (env : Env) (ledger : List String) (msgs : List MsgStub)
    (h : env.listMessages = .ok (some msgs)) :
    monitorEmails env ledger =
      .ok ({ processed := (msgs.filter (fun msg => !(ledger.contains msg.id))).length,
             results := (msgs.filter (fun msg => !(ledger.contains msg.id))).map
               (processEmail env) },
           (msgs.filter (fun msg => !(ledger.contains msg.id))).foldl
             (fun l msg => setAdd l msg.id) ledger) := by
  unfold monitorEmails
  rw [h]
  dsimp only
  by_cases h0 : (msgs.filter (fun msg => !(ledger.contains msg.id))).length = 0
  · have hnil : msgs.filter (fun msg => !(ledger.contains msg.id)) = [] :=
      List.length_eq_zero.mp h0
    rw [if_pos h0, hnil]
    rfl
  · rw [if_neg h0, foldl_step]
    rfl

/-- `processEmail` depends on the environment only through the oracles it
calls, and on `getMessage` only at the candidate's own id. -/
theorem processEmail_congr (env env' : Env) (m : MsgStub)
    (hg : env'.getMessage m.id = env.getMessage m.id)
    (hca : env'.chatAnalyze = env.chatAnalyze) (hcd : env'.chatDraft = env.chatDraft)
    (hdc : env'.draftsCreate = env.draftsCreate)
    (hbe : env'.b64encode = env.b64encode) (hbd : env'.b64decode = env.b64decode) :
    processEmail env' m = processEmail env m := by
  unfold processEmail analyzeEmailContent generateDraftResponse createDraftResponse
  rw [hg, hca, hcd, hdc, hbe, hbd]

/-- Claim C3: with a successful listing, a cycle processes exactly the listed
candidates whose ids are not already in the ledger: the report counts and
maps `processEmail` over the filtered list only, a candidate whose id is in
the ledger is excluded from it, and the cycle's outcome does not depend on
the fetch oracle's behaviour at ledger ids (so ledger candidates are never
fetched, classified, drafted or dispatched); the final ledger is the old one
extended by the processed ids. -/
theorem monitor_skips_ledger (env : Env) (ledger : List String) (msgs : List MsgStub)
    (h : env.listMessages = .ok (some msgs)) :
    monitorEmails env ledger =
      .ok ({ processed := (msgs.filter (fun msg => !(ledger.contains msg.id))).length,
             results := (msgs.filter (fun msg => !(ledger.contains msg.id))).map
               (processEmail env) },
           (msgs.filter (fun msg => !(ledger.contains msg.id))).foldl
             (fun l msg => setAdd l msg.id) ledger)
    ∧ (∀ m ∈ msgs, m.id ∈ ledger →
        m ∉ msgs.filter (fun msg => !(ledger.contains msg.id)))
    ∧ ∀ env' : Env, env'.listMessages = env.listMessages →
        (∀ mid, mid ∉ ledger → env'.getMessage mid = env.getMessage mid) →
        env'.chatAnalyze = env.chatAnalyze → env'.chatDraft = env.chatDraft →
        env'.draftsCreate = env.draftsCreate →
        env'.b64encode = env.b64encode → env'.b64decode = env.b64decode →
        monitorEmails env' ledger = monitorEmails env ledger := by
  refine ⟨monitorEmails_run env ledger msgs h, ?_, ?_⟩
  · intro m hm hin hfilter
    have hc := (List.mem_filter.mp hfilter).2
    have hc2 : ledger.contains m.id = true := List.elem_eq_true_of_mem hin
    rw [hc2] at hc
    exact Bool.noConfusion hc
  · intro env' hl hg hca hcd hdc hbe hbd
    have h' : env'.listMessages = .ok (some msgs) := by rw [hl, h]
    rw [monitorEmails_run env' ledger msgs h', monitorEmails_run env ledger msgs h]
    have hmap : (msgs.filter (fun msg => !(ledger.contains msg.id))).map
          (processEmail env')
        = (msgs.filter (fun msg => !(ledger.contains msg.id))).map
          (processEmail env) := by
      apply List.map_congr_left
      intro m hm
      have hnotin : m.id ∉ ledger := by
        intro hin
        have hc := (List.mem_filter.mp hm).2
        have hc2 : ledger.contains m.id = true := List.elem_eq_true_of_mem hin
        rw [hc2] at hc
        exact Bool.noConfusion hc
      exact processEmail_congr env env' m (hg m.id hnotin) hca hcd hdc hbe hbd
    rw [hmap]

/-- Witness for C3 (the spec scenario): listing yields ids a, b, c with the
ledger already holding a; only b and c are processed, the report counts 2,
and the ledger afterwards is a, b, c. -/
theorem monitor_skips_ledger_witness :
    monitorEmails offlineEnv ["a"]
      = .ok ({ processed := 2,
               results := [.failure "offline", .failure "offline"] },
             ["a", "b", "c"])
    ∧ ({ id := "a" } : MsgStub) ∉
        ([{ id := "a" }, { id := "b" }, { id := "c" }] : List MsgStub).filter
          (fun msg => !((["a"] : List String).contains msg.id)) := by
  have h := monitor_skips_ledger offlineEnv ["a"]
    [{ id := "a" }, { id := "b" }, { id := "c" }] rfl
  constructor
  · rw [h.1]
    rfl
  · exact h.2.1 { id := "a" } (List.mem_cons_self _ _) (List.mem_singleton.mpr rfl)

/-- Claim C4: with a successful listing the cycle always completes with one
result per remaining candidate and inserts every remaining candidate's id
into the ledger regardless of its outcome; an error raised at any stage of
one candidate — fetch, decode, or draft creation — is caught at the
candidate boundary and becomes a failure ProcessingResult carrying the error
message. -/
theorem candidate_boundary (env : Env) (ledger : List String) (msgs : List MsgStub)
    (m : MsgStub) (e : String) :
    (env.listMessages = .ok (some msgs) →
      ∃ rep led, monitorEmails env ledger = .ok (rep, led)
        ∧ rep.results
            = (msgs.filter (fun msg => !(ledger.contains msg.id))).map (processEmail env)
        ∧ rep.processed = (msgs.filter (fun msg => !(ledger.contains msg.id))).length
        ∧ ∀ m2 ∈ msgs.filter (fun msg => !(ledger.contains msg.id)), m2.id ∈ led)
    ∧ (env.getMessage m.id = .error e → processEmail env m = .failure e)
    ∧ (∀ full, env.getMessage m.id = .ok full →
        decodeFields env.b64decode full.payload = .error e →
        processEmail env m = .failure e)
    ∧ (∀ full subject sender «to» body,
        env.getMessage m.id = .ok full →
        decodeFields env.b64decode full.payload = .ok (subject, sender, «to», body) →
        analyzeEmailContent env subject body ≠ Json.null →
        (∀ r, env.draftsCreate r = .error e) →
        processEmail env m = .failure e) := by
  refine ⟨?_, ?_, ?_, ?_⟩
  · intro h
    refine ⟨_, _, monitorEmails_run env ledger msgs h, rfl, rfl, ?_⟩
    intro m2 hm2
    exact (foldl_setAdd_mem _ ledger).2 m2 hm2
  · intro h
    unfold processEmail
    rw [h]
  · intro full h1 h2
    unfold processEmail
    rw [h1]
    dsimp only
    rw [h2]
  · intro full subject sender «to» body hget hdec hnn hbad
    unfold processEmail
    rw [hget]
    dsimp only
    rw [hdec]
    dsimp only
    cases hA : analyzeEmailContent env subject body
    case null => exact absurd hA hnn
    all_goals
      dsimp only
      unfold createDraftResponse
      rw [hbad]

/-- Witness for C4: with every oracle failing, the cycle still reports one
failure result per candidate, each id enters the ledger, and the fetch error
surfaces as a failure result for a single candidate. -/
theorem candidate_boundary_witness :
    (∃ rep led, monitorEmails offlineEnv [] = .ok (rep, led)
      ∧ rep.results
          = (([{ id := "a" }, { id := "b" }, { id := "c" }] : List MsgStub).filter
              (fun msg => !(([] : List String).contains msg.id))).map
            (processEmail offlineEnv)
      ∧ rep.processed
          = (([{ id := "a" }, { id := "b" }, { id := "c" }] : List MsgStub).filter
              (fun msg => !(([] : List String).contains msg.id))).length
      ∧ ∀ m2 ∈ ([{ id := "a" }, { id := "b" }, { id := "c" }] : List MsgStub).filter
            (fun msg => !(([] : List String).contains msg.id)), m2.id ∈ led)
    ∧ processEmail offlineEnv { id := "z" } = .failure "offline" := by
  have h := candidate_boundary offlineEnv []
    [{ id := "a" }, { id := "b" }, { id := "c" }] { id := "z" } "offline"
  exact ⟨h.1 rfl, h.2.1 rfl⟩

end EmailLeadMonitor
